import Mathlib

/-!
Shallow embedding of `src/sample1.cpp` (a4z/sthlm0x06_samplecode): a small
C++ demonstration program layered over the SQLite C interface.  The SQLite
engine itself is third-party and treated as a black box; where an engine
response is needed we either take the response code as an explicit input
(an oracle) or model the documented engine behaviour for exactly the
values and statements this program exercises.  C++ `double` values are
represented by their bit pattern (a `Nat`): the program never performs
arithmetic on them, it only stores and retrieves them, so storage
round-trips are bit-pattern identities.  C++ strings are byte lists.
-/

namespace Sample1

/-- SQLite storage classes, as values.  `real` carries the IEEE-754 bit
pattern of the stored double (the engine stores and returns doubles
unchanged; no arithmetic is modelled).  `text` carries the byte string. -/
inductive SqlValue where
  | integer (i : Int)
  | real (bits : Nat)
  | text (bytes : List Nat)
  | null
deriving DecidableEq, Repr

/-- Bytes of an ASCII string literal, for readability of concrete values. -/
def strBytes (s : String) : List Nat :=
  s.data.map Char.toNat

/-- Result code `SQLITE_OK`. -/
def SQLITE_OK : Int := 0

/-- Result code `SQLITE_RANGE` (bind index out of range). -/
def SQLITE_RANGE : Int := 25

/-- How a helper gives up: `exited` models printing to `std::cerr` followed
by `std::exit(EXIT_FAILURE)`; `threw` models a C++ `throw` of a string
literal. -/
inductive Failure where
  | exited (msg : String)
  | threw (msg : String)
deriving DecidableEq, Repr

/-- True exactly when the outcome is the print-and-exit failure. -/
def isExited {α : Type} : Except Failure α → Bool
  | Except.error (Failure.exited _) => true
  | _ => false

/-- True exactly when the outcome is any failure at all. -/
def isFailure {α : Type} : Except Failure α → Bool
  | Except.error _ => true
  | _ => false

/-- A prepared statement: its declared parameter count and the currently
bound parameters (most recent binding of an index first, as rebinding
overrides). -/
structure Stmt where
  paramCount : Nat
  params : List (Nat × SqlValue)
deriving DecidableEq, Repr

/-- Engine model of `sqlite3_bind_int64`: binding succeeds (`SQLITE_OK`)
for an index in `1 .. paramCount` and fails with `SQLITE_RANGE`
otherwise, per the SQLite documentation. -/
def sqlite3_bind_int64 (stmt : Stmt) (index : Nat) (v : Int) : Int × Stmt :=
  if 1 ≤ index ∧ index ≤ stmt.paramCount then
    (SQLITE_OK, { stmt with params := (index, SqlValue.integer v) :: stmt.params })
  else
    (SQLITE_RANGE, stmt)

/-- Engine model of `sqlite3_bind_double` (bit pattern stored unchanged). -/
def sqlite3_bind_double (stmt : Stmt) (index : Nat) (bits : Nat) : Int × Stmt :=
  if 1 ≤ index ∧ index ≤ stmt.paramCount then
    (SQLITE_OK, { stmt with params := (index, SqlValue.real bits) :: stmt.params })
  else
    (SQLITE_RANGE, stmt)

/-- Engine model of `sqlite3_bind_text` with `SQLITE_TRANSIENT`: the byte
string is copied into the statement. -/
def sqlite3_bind_text (stmt : Stmt) (index : Nat) (bytes : List Nat) : Int × Stmt :=
  if 1 ≤ index ∧ index ≤ stmt.paramCount then
    (SQLITE_OK, { stmt with params := (index, SqlValue.text bytes) :: stmt.params })
  else
    (SQLITE_RANGE, stmt)

/-- The `int64_t` overload of `parameter`: calls `sqlite3_bind_int64` and
throws `"TODO"` unless the engine reports `SQLITE_OK`. -/
def parameter_int64 (stmt : Stmt) (index : Nat) (v : Int) : Except Failure Stmt :=
  let rcAndStmt := sqlite3_bind_int64 stmt index v
  if rcAndStmt.fst ≠ SQLITE_OK then Except.error (Failure.threw "TODO")
  else Except.ok rcAndStmt.snd

/-- The `double` overload of `parameter`: calls `sqlite3_bind_double` and
throws `"TODO"` unless the engine reports `SQLITE_OK`. -/
def parameter_double (stmt : Stmt) (index : Nat) (bits : Nat) : Except Failure Stmt :=
  let rcAndStmt := sqlite3_bind_double stmt index bits
  if rcAndStmt.fst ≠ SQLITE_OK then Except.error (Failure.threw "TODO")
  else Except.ok rcAndStmt.snd

/-- The `std::string` overload of `parameter`: calls `sqlite3_bind_text`
(with `SQLITE_TRANSIENT`) and throws `"TODO"` unless the engine reports
`SQLITE_OK`. -/
def parameter_text (stmt : Stmt) (index : Nat) (bytes : List Nat) : Except Failure Stmt :=
  let rcAndStmt := sqlite3_bind_text stmt index bytes
  if rcAndStmt.fst ≠ SQLITE_OK then Except.error (Failure.threw "TODO")
  else Except.ok rcAndStmt.snd

/-- `open_database`: the engine result code of `sqlite3_open` and the
handle it produced are oracle inputs; on any code other than `SQLITE_OK`
the helper prints to `std::cerr` and calls `std::exit(EXIT_FAILURE)`. -/
def open_database (rc : Int) (db : Nat) (name errmsg : String) : Except Failure Nat :=
  if rc ≠ SQLITE_OK then
    Except.error (Failure.exited ("Unable to open database " ++ name ++ ": " ++ errmsg))
  else
    Except.ok db

/-- `execute`: the engine result code of `sqlite3_exec` is an oracle
input; on any code other than `SQLITE_OK` the helper prints to
`std::cerr` and calls `std::exit(EXIT_FAILURE)`. -/
def execute (rc : Int) (sql errmsg : String) : Except Failure Unit :=
  if rc ≠ SQLITE_OK then
    Except.error (Failure.exited ("Unable to execute " ++ sql ++ ": " ++ errmsg))
  else
    Except.ok ()

/-- `create_statement`: the engine result code of `sqlite3_prepare_v2`
and the prepared statement are oracle inputs; on any code other than
`SQLITE_OK` the helper prints to `std::cerr` and calls
`std::exit(EXIT_FAILURE)`. -/
def create_statement (rc : Int) (stmt : Stmt) (sql errmsg : String) : Except Failure Stmt :=
  if rc ≠ SQLITE_OK then
    Except.error (Failure.exited ("Unable to create statement " ++ sql ++ ": " ++ errmsg))
  else
    Except.ok stmt

end Sample1

namespace Sample1

/-!  The `not_null<T>` wrapper, instantiated at `T = sqlite3*`-like raw
pointers.  A raw pointer is `Option Nat`: `none` is `nullptr`, `some a`
a non-null address. -/

/-- A raw pointer value: `none` models `nullptr`. -/
abbrev RawPtr := Option Nat

/-- `Ensure`: throws the string `"Ensure failed"` when the flag is false.
This is the run-time check backing `ensure_invariant`. -/
def Ensure (flag : Bool) : Except String Unit :=
  if !flag then Except.error "Ensure failed" else Except.ok ()

/-- `ensure_invariant`: `Ensure(ptr_ != nullptr)`. -/
def ensure_invariant (ptr_ : RawPtr) : Except String Unit :=
  Ensure (decide (ptr_ ≠ none))

/-- The `not_null` wrapper: stores the pointer.  (The deleted
`nullptr_t`/`int` constructors have no run-time counterpart; they are
compile-time rejections of literals and are simply absent here.) -/
structure not_null where
  ptr_ : RawPtr
deriving DecidableEq, Repr

/-- The converting constructor `not_null(T t)`: stores `t`, then runs
`ensure_invariant()`, which throws at run time if `t` is null. -/
def not_null.mk_from (t : RawPtr) : Except String not_null :=
  match ensure_invariant t with
  | Except.error e => Except.error e
  | Except.ok _ => Except.ok ⟨t⟩

/-- `not_null::get()`: returns the stored pointer. -/
def not_null.get (nn : not_null) : RawPtr :=
  nn.ptr_

/-- `operator T()`: implicit conversion, forwards to `get()`. -/
def not_null.toT (nn : not_null) : RawPtr :=
  nn.get

/-- `operator->()`: forwards to `get()`. -/
def not_null.arrow (nn : not_null) : RawPtr :=
  nn.get

/-- `operator==(const T&)`: compares the stored pointer with `rhs`. -/
def not_null.eq (nn : not_null) (rhs : RawPtr) : Bool :=
  decide (nn.ptr_ = rhs)

/-- `operator!=(const T&)`: negation of `operator==`. -/
def not_null.ne (nn : not_null) (rhs : RawPtr) : Bool :=
  !(nn.eq rhs)

end Sample1

namespace Sample1

/-!  Result rows and column accessors.  The program reads back rows of the
three-column table `things(id INTEGER PRIMARY KEY, name TEXT, value REAL)`.
Column reads are modelled for the storage classes this program actually
reads; SQLite's cross-class coercions (e.g. rendering an integer as text)
are not modelled and yield `none`. -/

/-- A row of the `things` table. -/
structure Row3 where
  id : SqlValue
  name : SqlValue
  val : SqlValue
deriving DecidableEq, Repr

/-- Column projection of a row. -/
def Row3.col (r : Row3) : Nat → SqlValue
  | 0 => r.id
  | 1 => r.name
  | 2 => r.val
  | _ => SqlValue.null

/-- Engine model of `sqlite3_column_int64`: returns the stored integer
for an INTEGER value; coercions from other storage classes are not
modelled (`none`). -/
def sqlite3_column_int64 (r : Row3) (i : Nat) : Option Int :=
  match r.col i with
  | SqlValue.integer v => some v
  | _ => none

/-- Engine model of `sqlite3_column_double`: returns the stored bit
pattern for a REAL value; coercions from other storage classes are not
modelled (`none`). -/
def sqlite3_column_double (r : Row3) (i : Nat) : Option Nat :=
  match r.col i with
  | SqlValue.real bits => some bits
  | _ => none

/-- Engine model of the data pointer returned by `sqlite3_column_text`:
the bytes behind the pointer for a TEXT value, `none` (a null pointer)
for SQL NULL.  Numeric-to-text rendering is not modelled (`none`). -/
def text_pointer (v : SqlValue) : Option (List Nat) :=
  match v with
  | SqlValue.text bs => some bs
  | _ => none

/-- Engine model of `sqlite3_column_bytes` for a text read: the byte
count of a TEXT value, `0` otherwise. -/
def text_bytes (v : SqlValue) : Nat :=
  match v with
  | SqlValue.text bs => bs.length
  | _ => 0

/-- `std::string(first, s)`: copies `s` bytes from the buffer behind the
pointer; dereferencing a null pointer is an error. -/
def mkString (first : Option (List Nat)) (s : Nat) : Except String (List Nat) :=
  match first with
  | none => Except.error "constructed std::string from null data pointer"
  | some bytes => Except.ok (bytes.take s)

/-- The guarded text read shared by `value`, `print_thing` and the TEXT
branch of `dump_current_row`: `s > 0 ? std::string(first, s) : empty`. -/
def string_from_text_column (first : Option (List Nat)) (s : Nat) : Except String (List Nat) :=
  if s > 0 then mkString first s else Except.ok []

/-- `key`: `sqlite3_column_int64(stmt, 0)`. -/
def key (r : Row3) : Option Int :=
  sqlite3_column_int64 r 0

/-- `value`: reads column 1 as text via `sqlite3_column_text` and
`sqlite3_column_bytes`, building a string only when the byte count is
positive. -/
def value (r : Row3) : Except String (List Nat) :=
  string_from_text_column (text_pointer (r.col 1)) (text_bytes (r.col 1))

/-- The TEXT branch of `dump_current_row`: the guarded string surrounded
by single-quote bytes (ASCII 39). -/
def dump_text_cell (first : Option (List Nat)) (s : Nat) : Except String (List Nat) :=
  match string_from_text_column first s with
  | Except.ok bs => Except.ok ([39] ++ bs ++ [39])
  | Except.error e => Except.error e

end Sample1

namespace Sample1

/-!  The `run` helper in isolation.  `sqlite3_step` responses are an
oracle: a list of result codes (with row payloads of an abstract type ρ)
that the engine would return on successive calls.  `run` records a trace
of its interactions: each step, each callback invocation with its result,
and the `sqlite3_reset` issued by the `reset_guard` when `run` returns. -/

/-- A `sqlite3_step` result: `SQLITE_OK`, `SQLITE_DONE`, `SQLITE_ROW`
carrying the row the statement then points at, or any other (error)
code. -/
inductive StepRc (ρ : Type) where
  | ok
  | done
  | row (r : ρ)
  | error (code : Nat)
deriving DecidableEq, Repr

/-- One interaction of `run` with its surroundings. -/
inductive RunEvent (ρ : Type) where
  | stepped (rc : StepRc ρ)
  | callbackCalled (r : ρ) (result : Bool)
  | resetCalled
deriving DecidableEq, Repr

/-- The `step_next` lambda inside `run`: `false` (stop) on `SQLITE_OK`
and `SQLITE_DONE`; on `SQLITE_ROW` the callback decides, if one was
supplied; `false` in every other case. -/
def step_next {ρ : Type} (callback : Option (ρ → Bool)) (rc : StepRc ρ) : Bool :=
  match rc with
  | StepRc.ok => false
  | StepRc.done => false
  | StepRc.row r =>
    match callback with
    | some cb => cb r
    | none => false
  | StepRc.error _ => false

/-- The `while(step_next(sqlite3_step(stmt)));` loop: consumes engine
responses until `step_next` is false, recording steps and callback
invocations. -/
def runLoop {ρ : Type} (callback : Option (ρ → Bool)) : List (StepRc ρ) → List (RunEvent ρ)
  | [] => []
  | rc :: rest =>
    RunEvent.stepped rc ::
      (match rc with
       | StepRc.row r =>
         match callback with
         | some cb =>
           RunEvent.callbackCalled r (cb r) ::
             (if cb r then runLoop callback rest else [])
         | none => []
       | _ => [])

/-- `run`: the stepping loop, followed by the `sqlite3_reset` that the
`reset_guard` destructor issues on every exit path. -/
def run {ρ : Type} (callback : Option (ρ → Bool)) (rcs : List (StepRc ρ)) : List (RunEvent ρ) :=
  runLoop callback rcs ++ [RunEvent.resetCalled]

end Sample1

namespace Sample1

/-!  The transaction guard and the concrete `main1` program.  `main1` is a
closed program against an in-memory database, so we run it against a small
engine model holding the `things` table and record a trace of the calls it
makes.  Output is modelled at the granularity of printed cells carrying the
column values (iostream glyph formatting is not modelled). -/

deriving instance DecidableEq for Except

/-- Observable events of the program: calls into the engine and writes to
standard output. -/
inductive Event where
  | openedDb (name : String)
  | execSql (db : Nat) (sql : String)
  | prepared (db : Nat) (sql : String)
  | stepped
  | resetDone
  | printedCell (v : SqlValue)
  | printedRowEnd
  | printedThing (id : Option Int) (name : Except String (List Nat)) (vbits : Option Nat)
deriving DecidableEq, Repr

/-- The SQL issued by the `Transaction` constructor. -/
def beginSql : String := "BEGIN TRANSACTION;"

/-- The SQL issued by `Transaction::commit`. -/
def commitSql : String := "COMMIT TRANSACTION;"

/-- The SQL issued by the `Transaction` destructor while uncommitted. -/
def rollbackSql : String := "ROLLBACK TRANSACTION;"

/-- The CREATE TABLE statement executed by `create_things2` (raw string
from the source). -/
def createTableSql : String :=
  "CREATE TABLE things\n  (id INTEGER PRIMARY KEY, name TEXT,value REAL); "

/-- The INSERT statement prepared by `create_things2`. -/
def insertSql : String := "INSERT INTO things VALUES(@id,@name,@value);"

/-- The SELECT statement prepared by `main1`. -/
def selectSql : String := "SELECT * FROM things;"

/-- The transaction guard: holds the raw `sqlite3*` it was constructed
on, nulled out by `commit()`. -/
structure Transaction where
  _db : Option Nat
deriving DecidableEq, Repr

/-- The `Transaction` constructor: stores the (non-null) handle and
executes `BEGIN TRANSACTION;` on it. -/
def Transaction.init (db : Nat) : Transaction × List Event :=
  (⟨some db⟩, [Event.execSql db beginSql])

/-- `Transaction::commit()`: executes `COMMIT TRANSACTION;` if the handle
is still held, then nulls the handle. -/
def Transaction.commit (t : Transaction) : Transaction × List Event :=
  (⟨none⟩,
    match t._db with
    | some db => [Event.execSql db commitSql]
    | none => [])

/-- The `Transaction` destructor: executes `ROLLBACK TRANSACTION;` if the
handle is still held, otherwise does nothing. -/
def Transaction.destruct (t : Transaction) : List Event :=
  match t._db with
  | some db => [Event.execSql db rollbackSql]
  | none => []

/-- The engine's table state: `none` before `CREATE TABLE things`, then
the list of rows in insertion order. -/
structure Engine where
  things : Option (List Row3)
deriving DecidableEq, Repr

/-- Engine model of `sqlite3_exec` for the fixed SQL strings this program
executes: `CREATE TABLE things …` creates the empty table; the
transaction-control statements do not change the table. -/
def Engine.execEffect (e : Engine) (sql : String) : Engine :=
  if sql = createTableSql then { things := some [] } else e

/-- Engine model of stepping the INSERT statement: the row built from the
current bindings (unbound parameters are NULL) is appended, the step
reports `SQLITE_DONE`.  The bound values are stored unchanged: every
value this program binds already matches its column's affinity. -/
def insert_step (stmt : Stmt) : Row3 :=
  { id := (stmt.params.lookup 1).getD SqlValue.null
    name := (stmt.params.lookup 2).getD SqlValue.null
    val := (stmt.params.lookup 3).getD SqlValue.null }

/-- `run` on the INSERT statement with no callback: one step
(`SQLITE_DONE`, appending the row), then the reset guard fires. -/
def run_insert (e : Engine) (stmt : Stmt) : Engine × List Event :=
  ({ things := some ((e.things.getD []) ++ [insert_step stmt]) },
    [Event.stepped, Event.resetDone])

/-- The stepping loop of `run` on the SELECT statement: each remaining
row is a `SQLITE_ROW` step handed to the callback (which emits output
events and returns whether to continue); after the last row a final step
reports `SQLITE_DONE`. -/
def select_loop (cb : Row3 → List Event × Bool) : List Row3 → List Event
  | [] => [Event.stepped]
  | r :: rest =>
    Event.stepped :: (cb r).fst ++ (if (cb r).snd then select_loop cb rest else [])

/-- `run` on the SELECT statement with a callback: the stepping loop
followed by the reset guard's `sqlite3_reset`. -/
def run_select (cb : Row3 → List Event × Bool) (rows : List Row3) : List Event :=
  select_loop cb rows ++ [Event.resetDone]

/-- `dump_current_row`: prints every column of the current row (three
columns for `things`), then a row terminator; always returns `true`. -/
def dump_current_row (r : Row3) : List Event × Bool :=
  ([Event.printedCell (r.col 0), Event.printedCell (r.col 1),
    Event.printedCell (r.col 2), Event.printedRowEnd], true)

/-- `print_thing`: prints column 0 as int64, column 1 as guarded text
(the same read as `value`), column 2 as double; always returns `true`. -/
def print_thing (r : Row3) : List Event × Bool :=
  ([Event.printedThing (sqlite3_column_int64 r 0)
      (string_from_text_column (text_pointer (r.col 1)) (text_bytes (r.col 1)))
      (sqlite3_column_double r 2)], true)

/-- The prepared INSERT statement: three parameters, nothing bound yet. -/
def insert_stmt0 : Stmt := { paramCount := 3, params := [] }

/-- The prepared SELECT statement: no parameters. -/
def select_stmt0 : Stmt := { paramCount := 0, params := [] }

/-- `create_things2`: inside a transaction, creates the `things` table,
prepares the INSERT statement, binds the identity thing
`(0, "", 0.0)`, runs the insert, commits, and returns the statement.
Engine calls that cannot fail on a healthy in-memory database are given
the `SQLITE_OK` oracle. -/
def create_things2 (e : Engine) (db : Nat) : Except Failure (Stmt × Engine × List Event) := do
  let (transaction, evBegin) := Transaction.init db
  let e := Engine.execEffect e beginSql
  let _ ← execute SQLITE_OK createTableSql ""
  let evCreate := [Event.execSql db createTableSql]
  let e := Engine.execEffect e createTableSql
  let insert_thing ← create_statement SQLITE_OK insert_stmt0 insertSql ""
  let evPrep := [Event.prepared db insertSql]
  let insert_thing ← parameter_int64 insert_thing 1 0
  let insert_thing ← parameter_text insert_thing 2 (strBytes "")
  let insert_thing ← parameter_double insert_thing 3 0
  let (e, evRun) := run_insert e insert_thing
  let (transaction, evCommit) := Transaction.commit transaction
  let evDtor := Transaction.destruct transaction
  Except.ok (insert_thing, e,
    evBegin ++ evCreate ++ evPrep ++ evRun ++ evCommit ++ evDtor)

/-- `main1`: opens the in-memory database, creates and seeds the table
via `create_things2`, inserts `(1, "first", "second")` inside a
transaction (the third bind uses the string overload — the source's
"Mistake !!" line), then prepares `SELECT * FROM things;` and runs it
twice: once with `dump_current_row`, once with `print_thing`. -/
def main1 : Except Failure (Engine × List Event) := do
  let db ← open_database SQLITE_OK 1 ":memory:" ""
  let evOpen := [Event.openedDb ":memory:"]
  let e0 : Engine := { things := none }
  let (add_thing, e1, evCreate) ← create_things2 e0 db
  let (transaction, evBegin) := Transaction.init db
  let add_thing ← parameter_int64 add_thing 1 1
  let add_thing ← parameter_text add_thing 2 (strBytes "first")
  let add_thing ← parameter_text add_thing 3 (strBytes "second")
  let (e2, evRun) := run_insert e1 add_thing
  let (transaction, evCommit) := Transaction.commit transaction
  let evDtor := Transaction.destruct transaction
  let _stmt ← create_statement SQLITE_OK select_stmt0 selectSql ""
  let evPrepSel := [Event.prepared db selectSql]
  let rows := e2.things.getD []
  let evSel1 := run_select dump_current_row rows
  let evSel2 := run_select print_thing rows
  Except.ok (e2,
    evOpen ++ evCreate ++ evBegin ++ evRun ++ evCommit ++ evDtor
      ++ evPrepSel ++ evSel1 ++ evSel2)

/-- The identity thing inserted by `create_things2`. -/
def row_identity : Row3 :=
  { id := SqlValue.integer 0, name := SqlValue.text [], val := SqlValue.real 0 }

/-- The row inserted by the transaction block of `main1`: the third
binding used the string overload, so the `value` column holds TEXT. -/
def row_first : Row3 :=
  { id := SqlValue.integer 1, name := SqlValue.text (strBytes "first"),
    val := SqlValue.text (strBytes "second") }

end Sample1

namespace Sample1

/-- C1: a `Transaction` constructed on a database handle issues
`ROLLBACK TRANSACTION` on that handle at destruction when `commit()` was
never called, and destruction after `commit()` issues no SQL at all. -/
theorem transaction_rollback_unless_committed (db : Nat) :
    Transaction.destruct (Transaction.init db).fst = [Event.execSql db rollbackSql]
      ∧ Transaction.destruct (Transaction.commit (Transaction.init db).fst).fst = [] := by
  exact ⟨rfl, rfl⟩

/-- C9: `run` with no callback supplied (the default empty
`std::function`) stops as soon as the engine reports the first
`SQLITE_ROW`: exactly one step is taken and the remaining responses are
never consumed. -/
theorem run_no_callback_stops_at_first_row {ρ : Type} (r : ρ) (rest : List (StepRc ρ)) :
    run none (StepRc.row r :: rest)
      = [RunEvent.stepped (StepRc.row r), RunEvent.resetCalled] := by
  rfl

/-- Helper: the stepping loop itself never issues `sqlite3_reset`. -/
lemma resetCalled_not_mem_runLoop {ρ : Type} (cb : Option (ρ → Bool))
    (rcs : List (StepRc ρ)) : RunEvent.resetCalled ∉ runLoop cb rcs := by
  induction rcs with
  | nil => simp [runLoop]
  | cons rc rest ih =>
    cases rc with
    | ok => simp [runLoop]
    | done => simp [runLoop]
    | error c => simp [runLoop]
    | row r =>
      cases cb with
      | none => simp [runLoop]
      | some f =>
        by_cases h : f r
        · simp [runLoop, h]
          exact ih
        · simp [runLoop, h]

/-- C8: on every exit path — rows exhausted, completion, engine error,
or the callback stopping iteration early — `run` issues `sqlite3_reset`
exactly once, as its very last interaction, so the statement can be
executed again by a subsequent `run`. -/
theorem run_always_resets {ρ : Type} (cb : Option (ρ → Bool)) (rcs : List (StepRc ρ)) :
    ∃ pre, run cb rcs = pre ++ [RunEvent.resetCalled]
      ∧ RunEvent.resetCalled ∉ pre := by
  exact ⟨runLoop cb rcs, rfl, resetCalled_not_mem_runLoop cb rcs⟩

/-- C5 counterexample: constructing a `not_null` from a null pointer
value is not rejected by the compiler — it reaches run time, where
`ensure_invariant` throws the string `"Ensure failed"`.  The null check
is therefore a run-time assertion, not a compile-time one. -/
theorem not_null_null_check_fires_at_runtime :
    not_null.mk_from none = Except.error "Ensure failed" := by
  rfl

/-- C5 (amended): `not_null` construction from a pointer value succeeds
exactly when the pointer is non-null; construction from a null pointer
fails at run time with the thrown string `"Ensure failed"` (the
null/zero literal constructors are deleted and have no run-time
counterpart). -/
theorem not_null_construction (p : RawPtr) :
    ((∃ nn, not_null.mk_from p = Except.ok nn) ↔ p ≠ none)
      ∧ not_null.mk_from none = Except.error "Ensure failed" := by
  constructor
  · constructor
    · rintro ⟨nn, hnn⟩ hnone
      subst hnone
      simp [not_null.mk_from, ensure_invariant, Ensure] at hnn
    · intro hp
      cases p with
      | none => exact absurd rfl hp
      | some a => exact ⟨⟨some a⟩, rfl⟩
  · rfl

/-- C6: every operation of a successfully constructed `not_null`
forwards to the stored pointer: `get()`, the implicit conversion and
`operator->` all return the construction argument, and
`operator==`/`operator!=` with a pointer `q` are (in)equality of the
stored pointer and `q`. -/
theorem not_null_forwards (p : Nat) (q : RawPtr) (nn : not_null)
    (h : not_null.mk_from (some p) = Except.ok nn) :
    nn.get = some p ∧ nn.toT = some p ∧ nn.arrow = some p
      ∧ nn.eq q = decide (some p = q) ∧ nn.ne q = !(decide (some p = q)) := by
  have hnn : nn = ⟨some p⟩ := by
    simp [not_null.mk_from, ensure_invariant, Ensure] at h
    exact h.symm
  subst hnn
  exact ⟨rfl, rfl, rfl, rfl, rfl⟩

/-- C6 witness: the forwarding properties at the concrete pointer 5,
compared against the null pointer. -/
theorem not_null_forwards_witness :
    not_null.get ⟨some 5⟩ = some 5 ∧ not_null.toT ⟨some 5⟩ = some 5
      ∧ not_null.arrow ⟨some 5⟩ = some 5
      ∧ not_null.eq ⟨some 5⟩ none = decide ((some 5 : RawPtr) = none)
      ∧ not_null.ne ⟨some 5⟩ none = !(decide ((some 5 : RawPtr) = none)) :=
  not_null_forwards 5 none ⟨some 5⟩ rfl

/-- C4 counterexample: when the engine reports an error
(`SQLITE_RANGE`, bind index 0 out of range) to the `parameter` helper,
the helper does not print-and-exit: it throws `"TODO"` instead. -/
theorem parameter_error_is_not_print_and_exit :
    parameter_int64 insert_stmt0 0 5 = Except.error (Failure.threw "TODO")
      ∧ isExited (parameter_int64 insert_stmt0 0 5) = false
      ∧ isFailure (parameter_int64 insert_stmt0 0 5) = true := by
  decide

/-- C4 (amended): on an engine error, `open_database`, `execute` and
`create_statement` print an error message and exit the process, but the
three `parameter` overloads instead throw the string `"TODO"`. -/
theorem helper_error_handling (rc : Int) (db : Nat) (name errmsg sql : String)
    (stmt pstmt : Stmt) (index : Nat) (i : Int) (bits : Nat) (bs : List Nat)
    (hrc : rc ≠ SQLITE_OK) (hidx : ¬(1 ≤ index ∧ index ≤ pstmt.paramCount)) :
    isExited (open_database rc db name errmsg) = true
      ∧ isExited (execute rc sql errmsg) = true
      ∧ isExited (create_statement rc stmt sql errmsg) = true
      ∧ parameter_int64 pstmt index i = Except.error (Failure.threw "TODO")
      ∧ parameter_double pstmt index bits = Except.error (Failure.threw "TODO")
      ∧ parameter_text pstmt index bs = Except.error (Failure.threw "TODO") := by
  have hrc0 : rc ≠ 0 := by simpa [SQLITE_OK] using hrc
  refine ⟨?_, ?_, ?_, ?_, ?_, ?_⟩ <;>
    simp [open_database, execute, create_statement, parameter_int64, parameter_double,
      parameter_text, sqlite3_bind_int64, sqlite3_bind_double, sqlite3_bind_text,
      isExited, hrc0, hidx, SQLITE_OK, SQLITE_RANGE]

/-- C4 witness: the amended error behaviour at `rc = 1` and bind
index 0 on the INSERT statement. -/
theorem helper_error_handling_witness :
    isExited (open_database 1 1 ":memory:" "") = true
      ∧ isExited (execute 1 beginSql "") = true
      ∧ isExited (create_statement 1 insert_stmt0 insertSql "") = true
      ∧ parameter_int64 insert_stmt0 0 7 = Except.error (Failure.threw "TODO")
      ∧ parameter_double insert_stmt0 0 7 = Except.error (Failure.threw "TODO")
      ∧ parameter_text insert_stmt0 0 [7] = Except.error (Failure.threw "TODO") :=
  helper_error_handling 1 1 ":memory:" "" beginSql insert_stmt0 insert_stmt0 0 7 7 [7]
    (by decide) (by decide)

/-- C10: when a text column's byte count is zero, the guarded text read
(shared by `value`, `print_thing` and `dump_current_row`) yields the
empty string without constructing a string from the column's data
pointer — even a null data pointer is never dereferenced — and the TEXT
branch of `dump_current_row` prints just the two surrounding quotes. -/
theorem empty_text_read_is_safe (first : Option (List Nat)) (r : Row3)
    (h : text_bytes (Row3.col r 1) = 0) :
    string_from_text_column first 0 = Except.ok []
      ∧ dump_text_cell first 0 = Except.ok [39, 39]
      ∧ value r = Except.ok [] := by
  refine ⟨rfl, rfl, ?_⟩
  unfold value
  rw [h]
  rfl

/-- Helper: the stepping loop on a block of rows the callback accepts,
followed by `SQLITE_DONE`: every row is stepped and forwarded, the
`SQLITE_DONE` step ends the loop, and later responses are untouched. -/
lemma runLoop_rows_then_done {ρ : Type} (f : ρ → Bool) (vs : List ρ)
    (rest : List (StepRc ρ)) (hall : ∀ r ∈ vs, f r = true) :
    runLoop (some f) (vs.map StepRc.row ++ StepRc.done :: rest)
      = (vs.map fun r =>
          [RunEvent.stepped (StepRc.row r), RunEvent.callbackCalled r true]).flatten
        ++ [RunEvent.stepped StepRc.done] := by
  induction vs with
  | nil => simp [runLoop]
  | cons v tl ih =>
    have hv : f v = true := hall v (List.mem_cons_self v tl)
    have htl : ∀ r ∈ tl, f r = true := fun r hr => hall r (List.mem_cons_of_mem v hr)
    simp [runLoop, hv, ih htl]

/-- C2: `run` steps the statement repeatedly; when the engine answers a
block of rows followed by `SQLITE_DONE`, every row is forwarded to the
callback and stepping stops at the completion report (responses after it
are never consumed); a `SQLITE_OK` report likewise stops it; and a
callback returning `false` stops iteration immediately. -/
theorem run_forwards_rows_until_done {ρ : Type} (f : ρ → Bool) (vs : List ρ) (r0 : ρ)
    (rest rest2 rest3 : List (StepRc ρ))
    (hall : ∀ r ∈ vs, f r = true) (hr0 : f r0 = false) :
    run (some f) (vs.map StepRc.row ++ StepRc.done :: rest)
      = (vs.map fun r =>
          [RunEvent.stepped (StepRc.row r), RunEvent.callbackCalled r true]).flatten
        ++ [RunEvent.stepped StepRc.done, RunEvent.resetCalled]
      ∧ run (some f) (StepRc.ok :: rest2)
        = [RunEvent.stepped StepRc.ok, RunEvent.resetCalled]
      ∧ run (some f) (StepRc.row r0 :: rest3)
        = [RunEvent.stepped (StepRc.row r0), RunEvent.callbackCalled r0 false,
            RunEvent.resetCalled] := by
  refine ⟨?_, ?_, ?_⟩
  · unfold run
    rw [runLoop_rows_then_done f vs rest hall]
    simp
  · rfl
  · unfold run
    simp [runLoop, hr0]

/-- C2 witness: two rows both accepted by the callback, then
`SQLITE_DONE`; an immediate `SQLITE_OK`; and a row the callback
rejects. -/
theorem run_forwards_rows_until_done_witness :
    run (some fun r => decide (r < 2)) ([0, 1].map StepRc.row ++ StepRc.done :: [])
      = ([0, 1].map fun r =>
          [RunEvent.stepped (StepRc.row r), RunEvent.callbackCalled r true]).flatten
        ++ [RunEvent.stepped StepRc.done, RunEvent.resetCalled]
      ∧ run (some fun r => decide (r < 2)) (StepRc.ok :: [])
        = [RunEvent.stepped StepRc.ok, RunEvent.resetCalled]
      ∧ run (some fun r => decide (r < 2)) (StepRc.row 5 :: [])
        = [RunEvent.stepped (StepRc.row 5), RunEvent.callbackCalled 5 false,
            RunEvent.resetCalled] :=
  run_forwards_rows_until_done (fun r => decide (r < 2)) [0, 1] 5 [] [] []
    (by decide) (by decide)

/-- C3: binding an `int64_t`, a `std::string` and a `double` to the
INSERT statement's three parameters via the corresponding `parameter`
overloads, inserting, and reading the row back through `key`, `value`
and `sqlite3_column_double` yields exactly the originally bound
values. -/
theorem parameter_roundtrip (i : Int) (bs : List Nat) (bits : Nat) (st1 st2 st3 : Stmt)
    (h1 : parameter_int64 insert_stmt0 1 i = Except.ok st1)
    (h2 : parameter_text st1 2 bs = Except.ok st2)
    (h3 : parameter_double st2 3 bits = Except.ok st3) :
    key (insert_step st3) = some i
      ∧ value (insert_step st3) = Except.ok bs
      ∧ sqlite3_column_double (insert_step st3) 2 = some bits := by
  have e1 : st1 = (⟨3, [(1, SqlValue.integer i)]⟩ : Stmt) := by
    rw [show parameter_int64 insert_stmt0 1 i
        = Except.ok (⟨3, [(1, SqlValue.integer i)]⟩ : Stmt) from rfl] at h1
    injection h1 with h1
    exact h1.symm
  subst e1
  have e2 : st2 = (⟨3, [(2, SqlValue.text bs), (1, SqlValue.integer i)]⟩ : Stmt) := by
    rw [show parameter_text (⟨3, [(1, SqlValue.integer i)]⟩ : Stmt) 2 bs
        = Except.ok
            (⟨3, [(2, SqlValue.text bs), (1, SqlValue.integer i)]⟩ : Stmt) from rfl] at h2
    injection h2 with h2
    exact h2.symm
  subst e2
  have e3 : st3 = (⟨3, [(3, SqlValue.real bits), (2, SqlValue.text bs),
      (1, SqlValue.integer i)]⟩ : Stmt) := by
    rw [show parameter_double
          (⟨3, [(2, SqlValue.text bs), (1, SqlValue.integer i)]⟩ : Stmt) 3 bits
        = Except.ok (⟨3, [(3, SqlValue.real bits), (2, SqlValue.text bs),
            (1, SqlValue.integer i)]⟩ : Stmt) from rfl] at h3
    injection h3 with h3
    exact h3.symm
  subst e3
  refine ⟨rfl, ?_, rfl⟩
  cases bs with
  | nil => rfl
  | cons b tl =>
    simp [insert_step, value, string_from_text_column, text_pointer, text_bytes,
      Row3.col, mkString, List.take_length, List.lookup]

/-- C3 witness: the round-trip at the concrete bindings
`(42, "hi", bit pattern 9)`. -/
theorem parameter_roundtrip_witness :
    key (insert_step (⟨3, [(3, SqlValue.real 9), (2, SqlValue.text (strBytes "hi")),
        (1, SqlValue.integer 42)]⟩ : Stmt)) = some 42
      ∧ value (insert_step (⟨3, [(3, SqlValue.real 9), (2, SqlValue.text (strBytes "hi")),
          (1, SqlValue.integer 42)]⟩ : Stmt)) = Except.ok (strBytes "hi")
      ∧ sqlite3_column_double (insert_step (⟨3, [(3, SqlValue.real 9),
          (2, SqlValue.text (strBytes "hi")),
          (1, SqlValue.integer 42)]⟩ : Stmt)) 2 = some 9 :=
  parameter_roundtrip 42 (strBytes "hi") 9 _ _ _ rfl rfl rfl

/-- C7: `main1` opens the in-memory database, executes the
CREATE TABLE statement, inserts rows (the final table holds the identity
row and the `(1, "first", "second")` row), prepares and runs the SELECT
statement, and prints the query results (a cell per column for each row
via `dump_current_row`, and a line per row via `print_thing`). -/
theorem main1_behavior :
    ∃ trace : List Event,
      main1 = Except.ok ({ things := some [row_identity, row_first] }, trace)
        ∧ Event.openedDb ":memory:" ∈ trace
        ∧ Event.execSql 1 beginSql ∈ trace
        ∧ Event.execSql 1 createTableSql ∈ trace
        ∧ Event.execSql 1 commitSql ∈ trace
        ∧ Event.prepared 1 insertSql ∈ trace
        ∧ Event.prepared 1 selectSql ∈ trace
        ∧ Event.stepped ∈ trace
        ∧ Event.printedCell (SqlValue.integer 0) ∈ trace
        ∧ Event.printedCell (SqlValue.integer 1) ∈ trace
        ∧ Event.printedCell (SqlValue.text (strBytes "first")) ∈ trace
        ∧ Event.printedRowEnd ∈ trace
        ∧ Event.printedThing (some 1) (Except.ok (strBytes "first")) none ∈ trace := by
  refine ⟨_, rfl, ?_, ?_, ?_, ?_, ?_, ?_, ?_, ?_, ?_, ?_, ?_, ?_⟩ <;> decide

/-- C10 witness: the empty-text read at a null data pointer and at a row
whose `name` column is SQL NULL (data pointer null, byte count zero). -/
theorem empty_text_read_is_safe_witness :
    string_from_text_column none 0 = Except.ok []
      ∧ dump_text_cell none 0 = Except.ok [39, 39]
      ∧ value { id := SqlValue.integer 0, name := SqlValue.null, val := SqlValue.real 0 }
          = Except.ok [] :=
  empty_text_read_is_safe none
    { id := SqlValue.integer 0, name := SqlValue.null, val := SqlValue.real 0 } rfl

end Sample1
